import Mathlib

/-!
Verification of the pagination core of the go365 command-line Graph client.

The development shallowly embeds, in Lean, the page-token codec
(`ExtractPageToken`, `src/libgo365/mail.go`), the query-parameter builders of
the four paginated list endpoints (messages, calendar view, raw events, drive
items), the list-response normalizers, and the all-calendars aggregator
(`CalendarView` / `calendarViewSingle` / `calendarViewAllCalendars`,
`src/unnamed/part_007`).  Collaborator calls (HTTP `Get`, JSON unmarshalling,
`ListCalendars`) are modelled as explicit oracle arguments; Go strings are
modelled as Lean `String`, Go `int` as `Int`, pointer-typed optional struct
fields as `Option`.
-/

/-! ## Model of the parts of Go's net/url consumed by ExtractPageToken

`ExtractPageToken` calls `url.Parse(nextLink)` and, on success,
`parsed.Query().Get("$skiptoken")` / `parsed.Query().Get("$skip")`.  The
definitions below model `url.Parse` precisely enough to decide success or
failure and to recover the `RawQuery` component (the only part of the parsed
URL that `ExtractPageToken` consumes), and model `URL.Query()` (which is
`ParseQuery` with parse errors ignored pair-by-pair) and `Values.Get`.
-/

/-- Single quote character, kept out of character-literal position. -/
def squoteChar : Char := Char.ofNat 39

/-- Double quote character, kept out of character-literal position. -/
def dquoteChar : Char := Char.ofNat 34

/-- Models Go net/url `stringContainsCTLByte`: ASCII control bytes. -/
def isCTL (c : Char) : Bool := c.toNat < 0x20 || c.toNat == 0x7f

/-- Models Go net/url `unhex` together with `ishex`: the value of a hex digit,
or `none` for a non-hex character. -/
def unhex (c : Char) : Option Nat :=
  if c.isDigit then some (c.toNat - 48)
  else if squoteChar ≤ c ∧ c ≤ 'f' ∧ 'a' ≤ c then some (c.toNat - 87)
  else if 'A' ≤ c ∧ c ≤ 'F' then some (c.toNat - 55)
  else none

/-- Models success of Go net/url `unescape` in the path, fragment,
query-component and userinfo modes, where the only failure condition is a `%`
not followed by two hex digits. -/
def percentOK : List Char → Bool
  | [] => true
  | '%' :: a :: b :: rest => (unhex a).isSome && (unhex b).isSome && percentOK rest
  | '%' :: _ => false
  | _ :: rest => percentOK rest

/-- Characters Go's `shouldEscape` leaves unescaped in the host component
(`encodeHost` mode): the RFC 3986 sub-delims plus the extra characters net/url
deliberately allows in hosts. -/
def hostExtraChars : List Char :=
  ['-', '.', '_', '~', '!', '$', '&', squoteChar, '(', ')', '*', '+', ',',
   ';', '=', ':', '[', ']', '<', '>', dquoteChar]

/-- Models the per-character validity check Go's `unescape` applies to literal
(non-escaped) characters of a host: ASCII alphanumerics and `hostExtraChars`
are allowed, and bytes ≥ 0x80 are passed through unchecked. -/
def hostCharOK (c : Char) : Bool :=
  c.isAlphanum || decide (0x80 ≤ c.toNat) || hostExtraChars.contains c

/-- Models success of Go net/url `unescape` in `encodeHost` mode: every `%` is
followed by two hex digits whose value is a non-ASCII byte (or the escape
`%25`), and every literal character is acceptable in a host. -/
def hostPercentOK : List Char → Bool
  | [] => true
  | '%' :: a :: b :: rest =>
    (match unhex a, unhex b with
     | some ha, some hb =>
       (decide (8 ≤ ha) || (16 * ha + hb == 0x25)) && hostPercentOK rest
     | _, _ => false)
  | '%' :: _ => false
  | c :: rest => hostCharOK c && hostPercentOK rest

/-- Models Go net/url `validOptionalPort`: empty, or `:` followed by decimal
digits (possibly none). -/
def validOptionalPort (p : List Char) : Bool :=
  match p with
  | [] => true
  | c :: ds => c == ':' && ds.all Char.isDigit

/-- Splits a character list at the last occurrence of `sep`, returning the
parts before and after it, or `none` when `sep` does not occur.  Models the
`strings.LastIndex` idiom of Go's `parseAuthority` and `parseHost`. -/
def splitAtLast (sep : Char) (s : List Char) : Option (List Char × List Char) :=
  if s.contains sep then
    some (((s.reverse.dropWhile (fun c => c != sep)).drop 1).reverse,
          (s.reverse.takeWhile (fun c => c != sep)).reverse)
  else none

/-- Models success of Go net/url `parseHost`: a bracketed (IPv6) host needs a
closing `]` followed by a valid optional port; otherwise everything after the
last `:` must be a valid port; in both cases the host must survive
`unescape(host, encodeHost)`.  Zone-identifier handling inside brackets is
approximated by the same host character class. -/
def parseHostOK (host : List Char) : Bool :=
  match host with
  | '[' :: _ =>
    (match splitAtLast ']' host with
     | none => false
     | some (_, after) => validOptionalPort after && hostPercentOK host)
  | _ =>
    (match splitAtLast ':' host with
     | none => true
     | some (_, after) => after.all Char.isDigit) && hostPercentOK host

/-- Characters Go's `validUserinfo` allows besides ASCII alphanumerics. -/
def userinfoExtraChars : List Char :=
  ['-', '.', '_', ':', '~', '!', '$', '&', squoteChar, '(', ')', '*', '+',
   ',', ';', '=', '%', '@']

/-- Models Go net/url `validUserinfo`. -/
def validUserinfo (s : List Char) : Bool :=
  s.all (fun c => c.isAlphanum || userinfoExtraChars.contains c)

/-- Models success of Go net/url `parseAuthority`: optional userinfo before
the last `@` (validated by `validUserinfo` and unescaping), then the host. -/
def parseAuthorityOK (authority : List Char) : Bool :=
  match splitAtLast '@' authority with
  | none => parseHostOK authority
  | some (userinfo, host) =>
    validUserinfo userinfo && percentOK userinfo && parseHostOK host

/-- Models Go net/url `getScheme`: consumes a leading `scheme:`.  Returns
`none` for the "missing protocol scheme" error (`:` at position 0), otherwise
the scheme (possibly empty, meaning no scheme was present) and the remainder.
The first argument accumulates consumed characters in reverse. -/
def schemeSplitAux : List Char → List Char → Option (List Char × List Char)
  | acc, [] => some ([], acc.reverse)
  | acc, c :: rest =>
    if c.isAlpha then schemeSplitAux (c :: acc) rest
    else if c.isDigit || c == '+' || c == '-' || c == '.' then
      if acc.isEmpty then some ([], c :: rest)
      else schemeSplitAux (c :: acc) rest
    else if c == ':' then
      if acc.isEmpty then none
      else some (acc.reverse, rest)
    else some ([], acc.reverse ++ c :: rest)

/-- Entry point for `schemeSplitAux`; models Go net/url `getScheme`. -/
def schemeSplit (s : List Char) : Option (List Char × List Char) :=
  schemeSplitAux [] s

/-- Splits at the first occurrence of `sep`; `none` in the second component
means `sep` does not occur.  Models Go net/url's internal `split` helper with
`cutc = true`. -/
def cutChar (s : List Char) (sep : Char) : List Char × Option (List Char) :=
  match s.span (fun c => c != sep) with
  | (a, []) => (a, none)
  | (a, _ :: b) => (a, some b)

/-- Validity of the fragment part: Go `URL.setFragment` is only invoked for a
non-empty fragment and fails only on an invalid percent escape. -/
def fragmentOK : Option (List Char) → Bool
  | none => true
  | some f => f.isEmpty || percentOK f

/-- Models Go `url.Parse(rawURL)` as far as `ExtractPageToken` consumes it:
returns the `RawQuery` component on success and `none` exactly when `Parse`
returns an error.  The model covers: the fragment split and fragment escape
validation, the control-byte rejection (applied, as in Go, to the part before
the fragment), the `*` special case, scheme detection including the "missing
protocol scheme" error, the force-query form (trailing lone `?`), the opaque
form (scheme present and remainder not starting with `/`, returned without
further validation), the colon-in-first-path-segment error, authority parsing
after a leading `//` (userinfo, host character/escape classes, port), and
path escape validation. -/
def goURLParse (rawURL : String) : Option String :=
  let (u, frag) := cutChar rawURL.toList '#'
  if u.any isCTL then none
  else if !(fragmentOK frag) then none
  else if u = ['*'] then some ""
  else
    match schemeSplit u with
    | none => none
    | some (scheme, rest0) =>
      let forceQuery := (rest0.getLast? == some '?') && !(rest0.dropLast.contains '?')
      let (rest, rawQuery) :=
        if forceQuery then (rest0.dropLast, ([] : List Char))
        else
          match cutChar rest0 '?' with
          | (a, none) => (a, [])
          | (a, some q) => (a, q)
      if !scheme.isEmpty && rest.head? != some '/' then
        some (String.mk rawQuery)
      else if scheme.isEmpty && rest.head? != some '/'
          && (rest.takeWhile (fun c => c != '/')).contains ':' then
        none
      else if rest.head? == some '/' && (rest.drop 1).head? == some '/' then
        let a := rest.drop 2
        let authority := a.takeWhile (fun c => c != '/')
        let path := a.dropWhile (fun c => c != '/')
        if parseAuthorityOK authority && percentOK path then some (String.mk rawQuery)
        else none
      else
        if percentOK rest then some (String.mk rawQuery) else none

/-- Models Go net/url `QueryUnescape` (mode `encodeQueryComponent`): `+`
becomes space, `%XX` becomes the byte `XX`, an invalid escape fails.  Bytes
are represented as the character of the same code point. -/
def queryUnescapeList : List Char → Option (List Char)
  | [] => some []
  | '%' :: a :: b :: rest =>
    (match unhex a, unhex b with
     | some ha, some hb =>
       (match queryUnescapeList rest with
        | some tail => some (Char.ofNat (16 * ha + hb) :: tail)
        | none => none)
     | _, _ => none)
  | '%' :: _ => none
  | '+' :: rest =>
    (match queryUnescapeList rest with
     | some tail => some (' ' :: tail)
     | none => none)
  | c :: rest =>
    (match queryUnescapeList rest with
     | some tail => some (c :: tail)
     | none => none)

/-- Splits a character list on every occurrence of `sep` (separators removed,
empty segments kept), so that repeatedly applying `strings.Cut` as Go's query
parser does yields exactly these segments. -/
def splitOnChar (sep : Char) : List Char → List (List Char)
  | [] => [[]]
  | c :: rest =>
    if c == sep then [] :: splitOnChar sep rest
    else
      match splitOnChar sep rest with
      | [] => [[c]]
      | h :: t => (c :: h) :: t

/-- Models Go net/url `parseQuery` as used by `URL.Query()` (errors ignored,
partially parsed pairs kept): split on `&`, skip empty segments and segments
containing `;`, cut each segment at the first `=`, unescape key and value,
and skip the pair when unescaping fails. -/
def parseQueryPairs (query : String) : List (String × String) :=
  (splitOnChar '&' query.toList).filterMap (fun seg =>
    if seg.isEmpty || seg.contains ';' then none
    else
      let (k, v) := cutChar seg '='
      let vv := match v with | none => ([] : List Char) | some v0 => v0
      match queryUnescapeList k, queryUnescapeList vv with
      | some k2, some v2 => some (String.mk k2, String.mk v2)
      | _, _ => none)

/-- Models `parsed.Query().Get(key)`: the first value recorded for `key`, or
the empty string when the key is absent. -/
def queryGet (query : String) (key : String) : String :=
  match (parseQueryPairs query).find? (fun p => p.1 == key) with
  | some p => p.2
  | none => ""

/-- Embeds `ExtractPageToken` (src/libgo365/mail.go:89-110): extract the
pagination token from a Graph `@odata.nextLink` URL, trying `$skiptoken`
first and falling back to `$skip`, and returning `""` for an empty or
unparseable link. -/
def ExtractPageToken (nextLink : String) : String :=
  if nextLink == "" then ""
  else
    match goURLParse nextLink with
    | none => ""
    | some rawQuery =>
      let skiptoken := queryGet rawQuery "$skiptoken"
      if skiptoken != "" then skiptoken
      else
        let skip := queryGet rawQuery "$skip"
        if skip != "" then skip
        else ""


/-! ## Query parameter model

Go's `url.Values` is a map from keys to value lists; the list endpoints only
ever use `params.Set(k, v)`, which binds `k` to the single value `v`.  The
model is an association list with unique keys; `Values.set` replaces any
existing binding. -/

/-- Models `url.Values` restricted to the single-valued bindings produced by
`Values.Set`. -/
abbrev Values := List (String × String)

/-- Models `url.Values.Set`: remove any existing binding for `k`, bind `k` to
`v`. -/
def Values.set (m : Values) (k v : String) : Values :=
  m.filter (fun p => p.1 != k) ++ [(k, v)]

/-- Models `url.Values.Get`: the value bound to `k`, or `""` when absent. -/
def Values.get (m : Values) (k : String) : String :=
  match m.find? (fun p => p.1 == k) with
  | some p => p.2
  | none => ""

/-- Models `url.Values.Has`: whether a binding for `k` is present. -/
def Values.has (m : Values) (k : String) : Bool :=
  m.any (fun p => p.1 == k)

/-- Value of a decimal digit run, accumulated the way `strconv.ParseInt`
does. -/
def digitsToNat (ds : List Char) : Nat :=
  ds.foldl (fun acc c => acc * 10 + (c.toNat - 48)) 0

/-- Models the space classification of Go fmt's scanner (`isSpace` over its
`space` table): ASCII tab through carriage return, space, and the Unicode
space code points NEL, NBSP, U+1680, U+2000-U+200A, U+2028-U+2029, U+202F,
U+205F and U+3000. -/
def goScanIsSpace (c : Char) : Bool :=
  (decide (0x09 ≤ c.toNat) && decide (c.toNat ≤ 0x0d)) || c.toNat == 0x20 ||
  c.toNat == 0x85 || c.toNat == 0xa0 || c.toNat == 0x1680 ||
  (decide (0x2000 ≤ c.toNat) && decide (c.toNat ≤ 0x200a)) ||
  (decide (0x2028 ≤ c.toNat) && decide (c.toNat ≤ 0x2029)) ||
  c.toNat == 0x202f || c.toNat == 0x205f || c.toNat == 0x3000

/-- Models `ss.SkipSpace` as `Sscanf` runs it (`nlIsSpace = false`): leading
space runes are skipped, but a newline, or a carriage return directly
followed by a newline, is an "unexpected newline" error (`none`); a lone
carriage return is an ordinary space. -/
def sscanfSkipSpace : List Char → Option (List Char)
  | [] => some []
  | c :: rest =>
    if c == '\n' then none
    else if c == '\r' then
      match rest with
      | '\n' :: _ => none
      | _ => sscanfSkipSpace rest
    else if goScanIsSpace c then sscanfSkipSpace rest
    else some (c :: rest)

/-- Models the success of `fmt.Sscanf(s, "%d", new(int))` on a 64-bit
platform, as used by `ListMessagesWithPagination` (src/libgo365/mail.go:141)
to classify a page token: `scanInt` skips leading scanner spaces (a newline
is an error), accepts an optional sign, requires at least one decimal digit,
consumes the digit run, and parses the token with
`strconv.ParseInt(tok, 10, 64)`, which fails when the value lies outside the
signed 64-bit range.  Trailing characters are not consumed and do not cause
an error. -/
def sscanfIntOk (s : String) : Bool :=
  match sscanfSkipSpace s.toList with
  | none => false
  | some cs =>
    let signed :=
      match cs with
      | '+' :: rest => (false, rest)
      | '-' :: rest => (true, rest)
      | other => (false, other)
    match signed.2 with
    | c :: _ =>
      c.isDigit &&
        (let v := digitsToNat (signed.2.takeWhile Char.isDigit)
         if signed.1 then decide (v ≤ 9223372036854775808)
         else decide (v ≤ 9223372036854775807))
    | [] => false

/-! ## Data model (src/libgo365/mail.go, src/unnamed/part_007, drive types)

Pointer-typed fields become `Option`, slices become `List`, `time.Time`
fields are modelled by their RFC 3339 rendering (the only use the builders
make of them), and every field carries its Go zero value as default so that
Lean structure literals with omitted fields agree with Go composite
literals. -/

structure EmailAddress where
  Name : String := ""
  Address : String := ""
deriving DecidableEq

structure Recipient where
  EmailAddress : Option EmailAddress := none
deriving DecidableEq

structure ItemBody where
  ContentType : String := ""
  Content : String := ""
deriving DecidableEq

structure Message where
  ID : String := ""
  Subject : String := ""
  Body : Option ItemBody := none
  BodyPreview : String := ""
  From : Option Recipient := none
  ToRecipients : List Recipient := []
  CcRecipients : List Recipient := []
  BccRecipients : List Recipient := []
  ReceivedDateTime : Option String := none
  SentDateTime : Option String := none
  HasAttachments : Bool := false
  Importance : String := ""
  IsRead : Bool := false
  IsDraft : Bool := false
  ConversationID : String := ""
  InternetMessageID : String := ""
  WebLink : String := ""
deriving DecidableEq

/-- Models `MessageList` (src/libgo365/mail.go:61-65). -/
structure MessageList where
  Value : List Message := []
  NextLink : String := ""
  Count : Int := 0
deriving DecidableEq

structure DateTimeTimeZone where
  DateTime : String := ""
  TimeZone : String := ""
deriving DecidableEq

structure Location where
  DisplayName : String := ""
deriving DecidableEq

structure ResponseStatus where
  Response : String := ""
  Time : String := ""
deriving DecidableEq

structure Attendee where
  EmailAddress : Option EmailAddress := none
  Status : Option ResponseStatus := none
  Type' : String := ""
deriving DecidableEq

structure OnlineMeetingInfo where
  JoinUrl : String := ""
deriving DecidableEq

/-- Models `Event` (src/unnamed/part_007:11-26); `CalendarID` is populated by
the all-calendars aggregator. -/
structure Event where
  ID : String := ""
  Subject : String := ""
  Start : Option DateTimeTimeZone := none
  End : Option DateTimeTimeZone := none
  IsAllDay : Bool := false
  Location : Option Location := none
  Organizer : Option Recipient := none
  Attendees : List Attendee := []
  ResponseStatus : Option ResponseStatus := none
  Body : Option ItemBody := none
  OnlineMeeting : Option OnlineMeetingInfo := none
  IsOnlineMeeting : Bool := false
  WebLink : String := ""
  CalendarID : String := ""
deriving DecidableEq

/-- Models `Calendar` (src/unnamed/part_007:57-62). -/
structure Calendar where
  ID : String := ""
  Name : String := ""
  Owner : Option EmailAddress := none
deriving DecidableEq

/-- Models `EventList` (src/unnamed/part_007:99-103). -/
structure EventList where
  Value : List Event := []
  NextLink : String := ""
deriving DecidableEq

structure Hashes where
  SHA1Hash : String := ""
  QuickXorHash : String := ""
deriving DecidableEq

structure FolderFacet where
  ChildCount : Int := 0
deriving DecidableEq

structure FileFacet where
  MimeType : String := ""
  Hashes : Option Hashes := none
deriving DecidableEq

structure ItemReference where
  DriveID : String := ""
  DriveType : String := ""
  ID : String := ""
  Path : String := ""
deriving DecidableEq

structure DriveItem where
  ID : String := ""
  Name : String := ""
  Size : Int := 0
  CreatedDateTime : Option String := none
  LastModifiedDateTime : Option String := none
  WebURL : String := ""
  Folder : Option FolderFacet := none
  File : Option FileFacet := none
  ParentReference : Option ItemReference := none
  DownloadURL : String := ""
deriving DecidableEq

/-- Models `DriveItemList`. -/
structure DriveItemList where
  Value : List DriveItem := []
  NextLink : String := ""
deriving DecidableEq

/-! ## Request options and uniform responses -/

/-- Models `ListMessagesOptions` (src/libgo365/mail.go:68-77); the `*time.Time`
bounds are modelled by their RFC 3339 rendering. -/
structure ListMessagesOptions where
  FolderID : String := ""
  Top : Int := 0
  Skip : Int := 0
  PageToken : String := ""
  Filter : String := ""
  OrderBy : String := ""
  StartTime : Option String := none
  EndTime : Option String := none
deriving DecidableEq

/-- Models `ListMessagesResponse` (src/libgo365/mail.go:80-85). -/
structure ListMessagesResponse where
  Messages : List Message := []
  Count : Nat := 0
  HasMore : Bool := false
  NextPageToken : String := ""
deriving DecidableEq

/-- Models `CalendarViewOptions` (src/unnamed/part_007:65-73). -/
structure CalendarViewOptions where
  StartDateTime : String := ""
  EndDateTime : String := ""
  CalendarID : String := ""
  AllCalendars : Bool := false
  Top : Int := 0
  PageToken : String := ""
  UserID : String := ""
deriving DecidableEq

/-- Models `CalendarViewResponse` (src/unnamed/part_007:76-81). -/
structure CalendarViewResponse where
  Events : List Event := []
  Count : Nat := 0
  HasMore : Bool := false
  NextPageToken : String := ""
deriving DecidableEq

/-- Models `ListEventsOptions` (src/unnamed/part_007:84-89). -/
structure ListEventsOptions where
  CalendarID : String := ""
  Top : Int := 0
  PageToken : String := ""
  Filter : String := ""
deriving DecidableEq

/-- Models `ListEventsResponse` (src/unnamed/part_007:92-97). -/
structure ListEventsResponse where
  Events : List Event := []
  Count : Nat := 0
  HasMore : Bool := false
  NextPageToken : String := ""
deriving DecidableEq

/-- Models `ListItemsOptions` (drive implementation, src/libgo365/libgo365_test.go:200-209). -/
structure ListItemsOptions where
  UserID : String := ""
  SiteID : String := ""
  DriveID : String := ""
  Shared : Bool := false
  Top : Int := 0
  PageToken : String := ""
  OrderBy : String := ""
deriving DecidableEq

/-- Models `ListItemsResponse`. -/
structure ListItemsResponse where
  Items : List DriveItem := []
  Count : Nat := 0
  HasMore : Bool := false
  NextPageToken : String := ""
deriving DecidableEq

/-! ## Query parameter builders -/

/-- Models the constant `DefaultMessageLimit` (src/libgo365/mail.go:13). -/
def DefaultMessageLimit : Int := 100

/-- Embeds the filter-clause accumulation of `ListMessagesWithPagination`
(src/libgo365/mail.go:152-161): time-range clauses first, then the caller's
filter. -/
def msgFilterClauses (o : ListMessagesOptions) : List String :=
  (match o.StartTime with
   | some t => ["receivedDateTime ge " ++ t]
   | none => []) ++
  (match o.EndTime with
   | some t => ["receivedDateTime lt " ++ t]
   | none => []) ++
  (if o.Filter != "" then [o.Filter] else [])

/-- Embeds the query-parameter construction of `ListMessagesWithPagination`
(src/libgo365/mail.go:128-174): a default `$top`, `$count=true`, the
numeric-or-opaque classification of `PageToken`, the `Skip` fallback, the
ANDed filter clauses, and `$orderby`. -/
def listMessagesParams (opts : Option ListMessagesOptions) : Values :=
  let params := Values.set (Values.set [] "$top" (toString DefaultMessageLimit)) "$count" "true"
  match opts with
  | none => params
  | some o =>
    let params := if o.Top > 0 then params.set "$top" (toString o.Top) else params
    let params :=
      if o.PageToken != "" then
        (if sscanfIntOk o.PageToken then params.set "$skip" o.PageToken
         else params.set "$skiptoken" o.PageToken)
      else if o.Skip > 0 then params.set "$skip" (toString o.Skip)
      else params
    let filters := msgFilterClauses o
    let params :=
      if filters.length > 0 then params.set "$filter" (String.intercalate " and " filters)
      else params
    if o.OrderBy != "" then params.set "$orderby" o.OrderBy else params

/-- Embeds the query-parameter construction of `calendarViewSingle`
(src/unnamed/part_007:209-220): mandatory date range, optional `$top`, and
the page token always attached as `$skip`. -/
def calendarViewParams (opts : CalendarViewOptions) : Values :=
  let params := Values.set (Values.set [] "startDateTime" opts.StartDateTime) "endDateTime" opts.EndDateTime
  let params := if opts.Top > 0 then params.set "$top" (toString opts.Top) else params
  if opts.PageToken != "" then params.set "$skip" opts.PageToken else params

/-- Embeds the query-parameter construction of `ListEvents`
(src/unnamed/part_007:477-488): optional `$top`, the page token always
attached as `$skip`, optional `$filter`. -/
def listEventsParams (opts : Option ListEventsOptions) : Values :=
  match opts with
  | none => []
  | some o =>
    let params := if o.Top > 0 then Values.set [] "$top" (toString o.Top) else []
    let params := if o.PageToken != "" then params.set "$skip" o.PageToken else params
    if o.Filter != "" then params.set "$filter" o.Filter else params

/-- Embeds the query-parameter construction of `ListItems` (drive
implementation, src/libgo365/libgo365_test.go:288-300): optional `$top`, the
page token always attached as `$skiptoken`, optional `$orderby`. -/
def listItemsParams (opts : Option ListItemsOptions) : Values :=
  match opts with
  | none => []
  | some o =>
    let params := if o.Top > 0 then Values.set [] "$top" (toString o.Top) else []
    let params := if o.PageToken != "" then params.set "$skiptoken" o.PageToken else params
    if o.OrderBy != "" then params.set "$orderby" o.OrderBy else params

/-! ## List response normalizers -/

/-- Embeds the response construction of `ListMessagesWithPagination`
(src/libgo365/mail.go:186-193). -/
def listMessagesNormalize (messageList : MessageList) : ListMessagesResponse :=
  { Messages := messageList.Value
    Count := messageList.Value.length
    HasMore := messageList.NextLink != ""
    NextPageToken := ExtractPageToken messageList.NextLink }

/-- Embeds the response construction of `calendarViewSingle`
(src/unnamed/part_007:232-239). -/
def calendarViewNormalize (eventList : EventList) : CalendarViewResponse :=
  { Events := eventList.Value
    Count := eventList.Value.length
    HasMore := eventList.NextLink != ""
    NextPageToken := ExtractPageToken eventList.NextLink }

/-- Embeds the response construction of `ListEvents`
(src/unnamed/part_007:505-512). -/
def listEventsNormalize (eventList : EventList) : ListEventsResponse :=
  { Events := eventList.Value
    Count := eventList.Value.length
    HasMore := eventList.NextLink != ""
    NextPageToken := ExtractPageToken eventList.NextLink }

/-- Embeds the response construction of `ListItems` (drive implementation,
src/libgo365/libgo365_test.go:317-324). -/
def listItemsNormalize (itemList : DriveItemList) : ListItemsResponse :=
  { Items := itemList.Value
    Count := itemList.Value.length
    HasMore := itemList.NextLink != ""
    NextPageToken := ExtractPageToken itemList.NextLink }

/-! ## Calendar view dispatch and all-calendars aggregator

The HTTP/unmarshalling collaborators are abstracted: `listCalendars` stands
for the one `c.ListCalendars(ctx)` call (src/unnamed/part_007:245) and
`calendarViewSingle` for the per-calendar `c.calendarViewSingle(ctx, calOpts)`
call (src/unnamed/part_007:261), each returning either its decoded result or
the propagated error. -/

/-- Embeds the per-source options literal of `calendarViewAllCalendars`
(src/unnamed/part_007:254-259); omitted fields are Go zero values (in
particular `PageToken` is the empty string). -/
def perSourceOpts (opts : CalendarViewOptions) (cal : Calendar) : CalendarViewOptions :=
  { StartDateTime := opts.StartDateTime
    EndDateTime := opts.EndDateTime
    CalendarID := cal.ID
    Top := opts.Top }

/-- Embeds `calendarViewAllCalendars` (src/unnamed/part_007:243-282):
enumerate calendars (fatal on failure), query each calendar, skip failed
sources, tag each event with its calendar's ID, and return the concatenation
with `HasMore = false` and no next-page token. -/
def calendarViewAllCalendars
    (listCalendars : Except String (List Calendar))
    (calendarViewSingle : CalendarViewOptions → Except String CalendarViewResponse)
    (opts : CalendarViewOptions) : Except String CalendarViewResponse :=
  match listCalendars with
  | .error err => .error ("failed to list calendars: " ++ err)
  | .ok calendars =>
    let allEvents := calendars.foldl (fun acc cal =>
      match calendarViewSingle (perSourceOpts opts cal) with
      | .error _ => acc
      | .ok resp => acc ++ resp.Events.map (fun event => { event with CalendarID := cal.ID })) []
    .ok { Events := allEvents, Count := allEvents.length, HasMore := false }

/-- Embeds `CalendarView` (src/unnamed/part_007:177-190): validate options,
then dispatch to the aggregator or the single-calendar path. -/
def CalendarView
    (listCalendars : Except String (List Calendar))
    (calendarViewSingle : CalendarViewOptions → Except String CalendarViewResponse)
    (opts : Option CalendarViewOptions) : Except String CalendarViewResponse :=
  match opts with
  | none => .error "options are required"
  | some o =>
    if o.StartDateTime == "" || o.EndDateTime == "" then
      .error "startDateTime and endDateTime are required"
    else if o.AllCalendars then
      calendarViewAllCalendars listCalendars calendarViewSingle o
    else
      calendarViewSingle o

/-! ## Shared lemmas about the parameter map and integer rendering -/

theorem Values.get_nil (k : String) : Values.get [] k = "" := rfl

theorem Values.has_nil (k : String) : Values.has [] k = false := rfl

theorem Values.find?_filter_ne (m : Values) (k : String) :
    (m.filter (fun p => p.1 != k)).find? (fun p => p.1 == k) = none := by
  rw [List.find?_eq_none]
  intro x hx
  have := List.of_mem_filter hx
  simpa using this

theorem Values.find?_filter_of_ne (m : Values) (k k2 : String) (h : k ≠ k2) :
    (m.filter (fun p => p.1 != k)).find? (fun p => p.1 == k2) =
      m.find? (fun p => p.1 == k2) := by
  induction m with
  | nil => rfl
  | cons p t ih =>
    simp only [List.filter_cons]
    by_cases hq : p.1 = k2
    · have h1 : (p.1 != k) = true := bne_iff_ne.mpr (by rw [hq]; exact Ne.symm h)
      have h2 : (p.1 == k2) = true := beq_iff_eq.mpr hq
      simp only [h1, if_true, List.find?_cons, h2]
    · have h2 : (p.1 == k2) = false := beq_eq_false_iff_ne.mpr hq
      by_cases hp : p.1 = k
      · have h1 : (p.1 != k) = false := by simp [bne, hp]
        simp [h1, ih, List.find?_cons, h2]
      · have h1 : (p.1 != k) = true := bne_iff_ne.mpr hp
        simp [h1, List.find?_cons, h2, ih]

theorem Values.get_set_self (m : Values) (k v : String) : (m.set k v).get k = v := by
  unfold Values.set Values.get
  rw [List.find?_append, Values.find?_filter_ne]
  simp [List.find?]

theorem Values.get_set_ne (m : Values) (k v k2 : String) (h : k ≠ k2) :
    (m.set k v).get k2 = m.get k2 := by
  unfold Values.set Values.get
  rw [List.find?_append]
  have h2 : List.find? (fun p => p.1 == k2) [(k, v)] = none := by
    have hk : (k == k2) = false := beq_eq_false_iff_ne.mpr h
    simp [List.find?, hk]
  rw [h2, Values.find?_filter_of_ne m k k2 h]
  cases m.find? (fun p => p.1 == k2) <;> simp

theorem Values.has_set_self (m : Values) (k v : String) : (m.set k v).has k = true := by
  unfold Values.set Values.has
  simp

theorem Values.any_filter_of_ne (m : Values) (k k2 : String) (h : k ≠ k2) :
    (m.filter (fun p => p.1 != k)).any (fun p => p.1 == k2) =
      m.any (fun p => p.1 == k2) := by
  induction m with
  | nil => rfl
  | cons p t ih =>
    simp only [List.filter_cons]
    by_cases hq : p.1 = k2
    · have h1 : (p.1 != k) = true := bne_iff_ne.mpr (by rw [hq]; exact Ne.symm h)
      have h2 : (p.1 == k2) = true := beq_iff_eq.mpr hq
      simp only [h1, if_true, List.any_cons, h2, Bool.true_or]
    · have h2 : (p.1 == k2) = false := beq_eq_false_iff_ne.mpr hq
      by_cases hp : p.1 = k
      · have h1 : (p.1 != k) = false := by simp [bne, hp]
        simp [h1, ih, List.any_cons, h2]
      · have h1 : (p.1 != k) = true := bne_iff_ne.mpr hp
        simp [h1, List.any_cons, h2, ih]

theorem Values.has_set_ne (m : Values) (k v k2 : String) (h : k ≠ k2) :
    (m.set k v).has k2 = m.has k2 := by
  unfold Values.set Values.has
  simp only [List.any_append]
  have h1 : List.any [(k, v)] (fun p => p.1 == k2) = false := by
    simp [beq_iff_eq, h]
  rw [h1, Values.any_filter_of_ne m k k2 h]
  simp

theorem Values.get_ite_set_ne (c : Prop) [Decidable c] (m : Values) (k v k2 : String)
    (h : k ≠ k2) : (if c then m.set k v else m).get k2 = m.get k2 := by
  split
  · exact Values.get_set_ne m k v k2 h
  · rfl

theorem Values.has_ite_set_ne (c : Prop) [Decidable c] (m : Values) (k v k2 : String)
    (h : k ≠ k2) : (if c then m.set k v else m).has k2 = m.has k2 := by
  split
  · exact Values.has_set_ne m k v k2 h
  · rfl

theorem Nat.toDigitsCore_length_ge (b : Nat) (fuel n : Nat) (ds : List Char) (h : 1 ≤ fuel) :
    ds.length + 1 ≤ (Nat.toDigitsCore b fuel n ds).length := by
  induction fuel generalizing n ds with
  | zero => omega
  | succ f ih =>
    unfold Nat.toDigitsCore
    dsimp only
    split
    · simp
    · cases Nat.eq_zero_or_pos f with
      | inl h0 =>
        subst h0
        unfold Nat.toDigitsCore
        simp
      | inr hf =>
        have := ih (n / b) (Nat.digitChar (n % b) :: ds) hf
        simp only [List.length_cons] at this
        omega

theorem Nat.repr_pos_ne_zero (m : Nat) (h : 0 < m) : Nat.repr m ≠ "0" := by
  intro hc
  have hdata : (Nat.toDigits 10 m) = ['0'] := by
    have h1 : (Nat.toDigits 10 m).asString = "0" := hc
    have h2 := congrArg String.data h1
    simpa [List.asString] using h2
  by_cases hm : m < 10
  · interval_cases m <;> exact absurd hdata (by decide)
  · have hne : ¬ (m / 10 = 0) := by omega
    have hstep : Nat.toDigits 10 m = Nat.toDigitsCore 10 m (m / 10) [Nat.digitChar (m % 10)] := by
      conv_lhs => unfold Nat.toDigits Nat.toDigitsCore
      simp [hne]
    rw [hstep] at hdata
    have hlen := Nat.toDigitsCore_length_ge 10 m (m / 10) [Nat.digitChar (m % 10)] (by omega)
    rw [hdata] at hlen
    simp at hlen

theorem int_toString_pos_ne_zero (n : Int) (h : 0 < n) : toString n ≠ "0" := by
  obtain ⟨m, rfl⟩ := Int.eq_ofNat_of_zero_le h.le
  have hm : 0 < m := by exact_mod_cast h
  show Int.repr (Int.ofNat m) ≠ "0"
  simpa [Int.repr] using Nat.repr_pos_ne_zero m hm

theorem extractPageToken_empty : ExtractPageToken "" = "" := rfl

theorem extractPageToken_ne_empty_of (s : String) (h : ExtractPageToken s ≠ "") :
    (s != "") = true := by
  rcases eq_or_ne s "" with rfl | hne
  · exact absurd extractPageToken_empty h
  · exact bne_iff_ne.mpr hne

/-! ## Characterization of the pagination-relevant query parameters -/

theorem calendarViewParams_keys (o : CalendarViewOptions) :
    (calendarViewParams o).get "$skip" = (if o.PageToken != "" then o.PageToken else "")
    ∧ (calendarViewParams o).has "$skiptoken" = false
    ∧ (calendarViewParams o).get "$top" = (if o.Top > 0 then toString o.Top else "")
    ∧ (calendarViewParams o).has "$top" = decide (o.Top > 0) := by
  unfold calendarViewParams
  by_cases h1 : o.PageToken != "" <;> by_cases h2 : o.Top > 0 <;>
    simp [h1, h2, Values.get_set_self, Values.get_set_ne, Values.has_set_self,
          Values.has_set_ne, Values.get_nil, Values.has_nil]

theorem listEventsParams_keys (o : ListEventsOptions) :
    (listEventsParams (some o)).get "$skip" = (if o.PageToken != "" then o.PageToken else "")
    ∧ (listEventsParams (some o)).has "$skiptoken" = false
    ∧ (listEventsParams (some o)).get "$top" = (if o.Top > 0 then toString o.Top else "")
    ∧ (listEventsParams (some o)).has "$top" = decide (o.Top > 0) := by
  unfold listEventsParams
  by_cases h1 : o.PageToken != "" <;> by_cases h2 : o.Top > 0 <;>
    by_cases h3 : o.Filter != "" <;>
    simp [h1, h2, h3, Values.get_set_self, Values.get_set_ne, Values.has_set_self,
          Values.has_set_ne, Values.get_nil, Values.has_nil]

theorem listItemsParams_keys (o : ListItemsOptions) :
    (listItemsParams (some o)).get "$skiptoken" = (if o.PageToken != "" then o.PageToken else "")
    ∧ (listItemsParams (some o)).has "$skip" = false
    ∧ (listItemsParams (some o)).get "$top" = (if o.Top > 0 then toString o.Top else "")
    ∧ (listItemsParams (some o)).has "$top" = decide (o.Top > 0) := by
  unfold listItemsParams
  by_cases h1 : o.PageToken != "" <;> by_cases h2 : o.Top > 0 <;>
    by_cases h3 : o.OrderBy != "" <;>
    simp [h1, h2, h3, Values.get_set_self, Values.get_set_ne, Values.has_set_self,
          Values.has_set_ne, Values.get_nil, Values.has_nil]

theorem listMessagesParams_keys (o : ListMessagesOptions) :
    (listMessagesParams (some o)).get "$skip" =
      (if o.PageToken != "" then (if sscanfIntOk o.PageToken then o.PageToken else "")
       else if o.Skip > 0 then toString o.Skip else "")
    ∧ (listMessagesParams (some o)).has "$skip" =
      (if o.PageToken != "" then sscanfIntOk o.PageToken else decide (o.Skip > 0))
    ∧ (listMessagesParams (some o)).get "$skiptoken" =
      (if o.PageToken != "" && !sscanfIntOk o.PageToken then o.PageToken else "")
    ∧ (listMessagesParams (some o)).has "$skiptoken" =
      (o.PageToken != "" && !sscanfIntOk o.PageToken)
    ∧ (listMessagesParams (some o)).get "$top" =
      (if o.Top > 0 then toString o.Top else toString DefaultMessageLimit) := by
  unfold listMessagesParams
  by_cases h1 : o.PageToken != "" <;> by_cases h2 : sscanfIntOk o.PageToken <;>
    by_cases h3 : o.Skip > 0 <;> by_cases h4 : o.Top > 0 <;>
    by_cases h5 : (msgFilterClauses o).length > 0 <;> by_cases h6 : o.OrderBy != "" <;>
    simp [h1, h2, h3, h4, h5, h6, Values.get_set_self, Values.get_set_ne,
          Values.has_set_self, Values.has_set_ne, Values.get_nil, Values.has_nil]

/-! ## Claim C1 -/

/-- C1, counterexample.  The claim states that for every normalized list
response, `hasMore` is true iff the extracted next-page token is non-empty.
On a continuation link that parses but carries neither `$skiptoken` nor
`$skip`, the code sets `HasMore` from the raw link while the extracted token
is empty, refuting the claim as stated. -/
theorem hasMore_nextToken_mismatch :
    (listMessagesNormalize { Value := [], NextLink := "https://graph.microsoft.com/v1.0/me/messages?$top=50" }).HasMore = true
    ∧ (listMessagesNormalize { Value := [], NextLink := "https://graph.microsoft.com/v1.0/me/messages?$top=50" }).NextPageToken = "" := by
  decide

/-- C1, amended.  For every normalized list response (messages, calendar
view, raw events, drive items), `hasMore` equals the presence of a non-empty
raw continuation link, and a non-empty extracted next-page token implies
`hasMore`; the converse fails when the link carries no recognized pagination
parameter. -/
theorem hasMore_iff_nextLink_nonempty :
    (∀ ml : MessageList, (listMessagesNormalize ml).HasMore = (ml.NextLink != "")
      ∧ ((listMessagesNormalize ml).NextPageToken ≠ "" → (listMessagesNormalize ml).HasMore = true))
    ∧ (∀ el : EventList, (calendarViewNormalize el).HasMore = (el.NextLink != "")
      ∧ ((calendarViewNormalize el).NextPageToken ≠ "" → (calendarViewNormalize el).HasMore = true))
    ∧ (∀ el : EventList, (listEventsNormalize el).HasMore = (el.NextLink != "")
      ∧ ((listEventsNormalize el).NextPageToken ≠ "" → (listEventsNormalize el).HasMore = true))
    ∧ (∀ il : DriveItemList, (listItemsNormalize il).HasMore = (il.NextLink != "")
      ∧ ((listItemsNormalize il).NextPageToken ≠ "" → (listItemsNormalize il).HasMore = true)) := by
  refine ⟨fun ml => ⟨rfl, fun h => ?_⟩, fun el => ⟨rfl, fun h => ?_⟩,
          fun el => ⟨rfl, fun h => ?_⟩, fun il => ⟨rfl, fun h => ?_⟩⟩ <;>
    exact extractPageToken_ne_empty_of _ h

/-- C1, witness for the amended theorem at a concrete link carrying a
cursor token. -/
theorem hasMore_iff_nextLink_nonempty_witness :
    (listMessagesNormalize { Value := [], NextLink := "https://graph.microsoft.com/v1.0/me/messages?$skiptoken=next123" }).NextPageToken ≠ ""
    ∧ (listMessagesNormalize { Value := [], NextLink := "https://graph.microsoft.com/v1.0/me/messages?$skiptoken=next123" }).HasMore = true :=
  ⟨by decide,
   (hasMore_iff_nextLink_nonempty.1
     { Value := [], NextLink := "https://graph.microsoft.com/v1.0/me/messages?$skiptoken=next123" }).2
     (by decide)⟩

/-! ## Claim C2 -/

/-- C2, counterexample.  The claim states that every list request with a
non-empty continuation token classifies it (numeric goes to `$skip`,
otherwise `$skiptoken`) uniformly across resource families.  The calendar
view builder attaches the clearly non-numeric token `"abc"` as `$skip` and
never emits `$skiptoken`, refuting uniform classification. -/
theorem calendarView_token_not_classified :
    (calendarViewParams { StartDateTime := "2025-01-15T00:00:00Z", EndDateTime := "2025-01-16T00:00:00Z", PageToken := "abc" }).get "$skip" = "abc"
    ∧ (calendarViewParams { StartDateTime := "2025-01-15T00:00:00Z", EndDateTime := "2025-01-16T00:00:00Z", PageToken := "abc" }).has "$skiptoken" = false := by
  decide

/-- C2, amended.  Only the messages builder classifies a non-empty
continuation token (numeric to `$skip`, otherwise `$skiptoken`); the calendar
view and raw events builders always attach the token as `$skip`, and the
drive items builder always attaches it as `$skiptoken`. -/
theorem token_attachment_per_family :
    (∀ o : ListMessagesOptions, o.PageToken ≠ "" →
      (sscanfIntOk o.PageToken = true →
        (listMessagesParams (some o)).get "$skip" = o.PageToken
        ∧ (listMessagesParams (some o)).has "$skiptoken" = false)
      ∧ (sscanfIntOk o.PageToken = false →
        (listMessagesParams (some o)).get "$skiptoken" = o.PageToken
        ∧ (listMessagesParams (some o)).has "$skip" = false))
    ∧ (∀ o : CalendarViewOptions, o.PageToken ≠ "" →
      (calendarViewParams o).get "$skip" = o.PageToken
      ∧ (calendarViewParams o).has "$skiptoken" = false)
    ∧ (∀ o : ListEventsOptions, o.PageToken ≠ "" →
      (listEventsParams (some o)).get "$skip" = o.PageToken
      ∧ (listEventsParams (some o)).has "$skiptoken" = false)
    ∧ (∀ o : ListItemsOptions, o.PageToken ≠ "" →
      (listItemsParams (some o)).get "$skiptoken" = o.PageToken
      ∧ (listItemsParams (some o)).has "$skip" = false) := by
  refine ⟨fun o h => ?_, fun o h => ?_, fun o h => ?_, fun o h => ?_⟩
  all_goals have hb : (o.PageToken != "") = true := bne_iff_ne.mpr h
  · obtain ⟨g1, g2, g3, g4, g5⟩ := listMessagesParams_keys o
    refine ⟨fun hs => ⟨?_, ?_⟩, fun hs => ⟨?_, ?_⟩⟩
    · rw [g1]; simp [hb, hs]
    · rw [g4]; simp [hb, hs]
    · rw [g3]; simp [hb, hs]
    · rw [g2]; simp [hb, hs]
  · obtain ⟨g1, g2, g3, g4⟩ := calendarViewParams_keys o
    exact ⟨by rw [g1]; simp [hb], g2⟩
  · obtain ⟨g1, g2, g3, g4⟩ := listEventsParams_keys o
    exact ⟨by rw [g1]; simp [hb], g2⟩
  · obtain ⟨g1, g2, g3, g4⟩ := listItemsParams_keys o
    exact ⟨by rw [g1]; simp [hb], g2⟩

/-- C2, witness for the amended theorem: a drive request with an opaque token
attaches it as `$skiptoken` and never as `$skip`. -/
theorem token_attachment_per_family_witness :
    (listItemsParams (some { PageToken := "cursorA" })).get "$skiptoken" = "cursorA"
    ∧ (listItemsParams (some { PageToken := "cursorA" })).has "$skip" = false :=
  token_attachment_per_family.2.2.2 { PageToken := "cursorA" } (by decide)

/-! ## Claim C3 -/

/-- C3, counterexample.  The claim states that when both `continuationToken`
and `skipOffset` are set the parameters never contain the offset parameter.
With the numeric token `"50"` and `Skip = 100` the messages builder emits
`$skip=50` (the token's value), so the offset parameter is present. -/
theorem numeric_token_emits_offset_param :
    (listMessagesParams (some { Skip := 100, PageToken := "50" })).has "$skip" = true
    ∧ (listMessagesParams (some { Skip := 100, PageToken := "50" })).get "$skip" = "50" := by
  decide

/-- C3, amended.  When a non-empty continuation token is set it wins silently:
the parameters are exactly those built with `skipOffset` cleared (the
`skipOffset` value is dropped without error), and the offset parameter is
present iff the token itself is numeric, in which case it carries the token's
value rather than the offset. -/
theorem pageToken_precedence_over_skip (o : ListMessagesOptions) (h : o.PageToken ≠ "") :
    listMessagesParams (some o) = listMessagesParams (some { o with Skip := 0 })
    ∧ (listMessagesParams (some o)).has "$skip" = sscanfIntOk o.PageToken
    ∧ (sscanfIntOk o.PageToken = true → (listMessagesParams (some o)).get "$skip" = o.PageToken) := by
  have hb : (o.PageToken != "") = true := bne_iff_ne.mpr h
  refine ⟨?_, ?_, ?_⟩
  · unfold listMessagesParams msgFilterClauses
    simp [hb]
  · rw [(listMessagesParams_keys o).2.1]
    simp [hb]
  · intro hs
    rw [(listMessagesParams_keys o).1]
    simp [hb, hs]

/-- C3, witness at a concrete request with both an opaque token and a
non-zero offset. -/
theorem pageToken_precedence_over_skip_witness :
    listMessagesParams (some { Skip := 100, PageToken := "tok9" }) =
      listMessagesParams (some { Skip := 0, PageToken := "tok9" })
    ∧ (listMessagesParams (some { Skip := 100, PageToken := "tok9" })).has "$skip" = sscanfIntOk "tok9"
    ∧ (sscanfIntOk "tok9" = true →
        (listMessagesParams (some { Skip := 100, PageToken := "tok9" })).get "$skip" = "tok9") :=
  pageToken_precedence_over_skip { Skip := 100, PageToken := "tok9" } (by decide)

/-! ## Claim C6 -/

/-- C6, counterexample.  The claim states that a request with absent (zero)
limit omits the page-size parameter.  The messages builder emits the default
`$top=100` even when `Top = 0`. -/
theorem messages_default_top_emitted :
    (listMessagesParams (some { Top := 0 })).has "$top" = true
    ∧ (listMessagesParams (some { Top := 0 })).get "$top" = "100" := by
  decide

/-- C6, amended.  The calendar view, raw events and drive items builders emit
`$top` iff the limit is positive (with the limit's rendering as value); the
messages builder always emits `$top`, substituting the default `100` when the
limit is absent.  No builder ever emits `$top=0`. -/
theorem top_param_policy :
    (∀ o : ListMessagesOptions, (listMessagesParams (some o)).get "$top" =
        (if o.Top > 0 then toString o.Top else toString DefaultMessageLimit)
      ∧ (listMessagesParams (some o)).get "$top" ≠ "0")
    ∧ (∀ o : CalendarViewOptions, (calendarViewParams o).has "$top" = decide (o.Top > 0)
      ∧ (o.Top > 0 → (calendarViewParams o).get "$top" = toString o.Top)
      ∧ (calendarViewParams o).get "$top" ≠ "0")
    ∧ (∀ o : ListEventsOptions, (listEventsParams (some o)).has "$top" = decide (o.Top > 0)
      ∧ (o.Top > 0 → (listEventsParams (some o)).get "$top" = toString o.Top)
      ∧ (listEventsParams (some o)).get "$top" ≠ "0")
    ∧ (∀ o : ListItemsOptions, (listItemsParams (some o)).has "$top" = decide (o.Top > 0)
      ∧ (o.Top > 0 → (listItemsParams (some o)).get "$top" = toString o.Top)
      ∧ (listItemsParams (some o)).get "$top" ≠ "0") := by
  refine ⟨fun o => ?_, fun o => ?_, fun o => ?_, fun o => ?_⟩
  · have hk := (listMessagesParams_keys o).2.2.2.2
    refine ⟨hk, ?_⟩
    rw [hk]
    by_cases h : o.Top > 0
    · simpa [h] using int_toString_pos_ne_zero o.Top h
    · simp [h]
      decide
  · obtain ⟨g1, g2, g3, g4⟩ := calendarViewParams_keys o
    refine ⟨g4, fun h => by rw [g3]; simp [h], ?_⟩
    rw [g3]
    by_cases h : o.Top > 0
    · simpa [h] using int_toString_pos_ne_zero o.Top h
    · simp [h]
  · obtain ⟨g1, g2, g3, g4⟩ := listEventsParams_keys o
    refine ⟨g4, fun h => by rw [g3]; simp [h], ?_⟩
    rw [g3]
    by_cases h : o.Top > 0
    · simpa [h] using int_toString_pos_ne_zero o.Top h
    · simp [h]
  · obtain ⟨g1, g2, g3, g4⟩ := listItemsParams_keys o
    refine ⟨g4, fun h => by rw [g3]; simp [h], ?_⟩
    rw [g3]
    by_cases h : o.Top > 0
    · simpa [h] using int_toString_pos_ne_zero o.Top h
    · simp [h]

/-- C6, witness: a raw events request with positive limit emits it, one with
zero limit omits it. -/
theorem top_param_policy_witness :
    (listEventsParams (some { Top := 5 })).get "$top" = "5"
    ∧ (listEventsParams (some { Top := 0 })).has "$top" = decide ((0 : Int) > 0) :=
  ⟨(top_param_policy.2.2.1 { Top := 5 }).2.1 (by decide),
   (top_param_policy.2.2.1 { Top := 0 }).1⟩

/-! ## Claim C4 -/

/-- C4, confirmed.  When source enumeration yields `[A, B, C]` and the
per-source call fails for `B` while `A` and `C` succeed, the aggregator
returns no error and the aggregated events are exactly `A`'s events followed
by `C`'s events in that order, each tagged with its source calendar's ID. -/
theorem calendarViewAllCalendars_skips_failed_source
    (A B C : Calendar) (single : CalendarViewOptions → Except String CalendarViewResponse)
    (opts : CalendarViewOptions) (ra rc : CalendarViewResponse) (e : String)
    (hA : single (perSourceOpts opts A) = Except.ok ra)
    (hB : single (perSourceOpts opts B) = Except.error e)
    (hC : single (perSourceOpts opts C) = Except.ok rc) :
    calendarViewAllCalendars (Except.ok [A, B, C]) single opts =
      Except.ok { Events := ra.Events.map (fun ev => { ev with CalendarID := A.ID })
                            ++ rc.Events.map (fun ev => { ev with CalendarID := C.ID }),
                  Count := ra.Events.length + rc.Events.length,
                  HasMore := false, NextPageToken := "" } := by
  unfold calendarViewAllCalendars
  simp only [List.foldl_cons, List.foldl_nil, hA, hB, hC, List.nil_append]
  simp [List.length_append]

/-- C4, witness: three concrete calendars where the middle source errors. -/
theorem calendarViewAllCalendars_skips_failed_source_witness :
    calendarViewAllCalendars (Except.ok [{ ID := "a" }, { ID := "b" }, { ID := "c" }])
      (fun o => if o.CalendarID == "b" then Except.error "forbidden"
                else Except.ok { Events := [{ ID := "ev-" ++ o.CalendarID }], Count := 1 })
      { StartDateTime := "s", EndDateTime := "e", AllCalendars := true } =
    Except.ok { Events := [{ ID := "ev-a", CalendarID := "a" }, { ID := "ev-c", CalendarID := "c" }],
                Count := 2, HasMore := false, NextPageToken := "" } := by
  exact calendarViewAllCalendars_skips_failed_source
    { ID := "a" } { ID := "b" } { ID := "c" }
    (fun o => if o.CalendarID == "b" then Except.error "forbidden"
              else Except.ok { Events := [{ ID := "ev-" ++ o.CalendarID }], Count := 1 })
    { StartDateTime := "s", EndDateTime := "e", AllCalendars := true }
    { Events := [{ ID := "ev-a" }], Count := 1 }
    { Events := [{ ID := "ev-c" }], Count := 1 }
    "forbidden" rfl rfl rfl

/-! ## Claim C5 -/

/-- C5, confirmed.  The aggregator returns an error (the wrapped enumeration
error, with no partial result) iff the source-enumeration call fails; when
enumeration succeeds it always returns a result. -/
theorem calendarViewAllCalendars_error_iff_enumeration_fails
    (lc : Except String (List Calendar))
    (single : CalendarViewOptions → Except String CalendarViewResponse)
    (opts : CalendarViewOptions) :
    (∀ e, lc = Except.error e →
      calendarViewAllCalendars lc single opts = Except.error ("failed to list calendars: " ++ e))
    ∧ (∀ cals, lc = Except.ok cals →
      ∃ r, calendarViewAllCalendars lc single opts = Except.ok r) := by
  constructor
  · rintro e rfl
    rfl
  · rintro cals rfl
    exact ⟨_, rfl⟩

/-- C5, witness: a concrete failing enumeration is propagated as the only
error, and a concrete successful enumeration yields a result even when every
per-source call fails. -/
theorem calendarViewAllCalendars_error_iff_enumeration_fails_witness :
    calendarViewAllCalendars (Except.error "boom") (fun _ => Except.error "x")
      { StartDateTime := "s", EndDateTime := "e" } =
      Except.error ("failed to list calendars: " ++ "boom")
    ∧ ∃ r, calendarViewAllCalendars (Except.ok [{ ID := "a" }]) (fun _ => Except.error "x")
      { StartDateTime := "s", EndDateTime := "e" } = Except.ok r :=
  ⟨(calendarViewAllCalendars_error_iff_enumeration_fails (Except.error "boom")
      (fun _ => Except.error "x") { StartDateTime := "s", EndDateTime := "e" }).1 "boom" rfl,
   (calendarViewAllCalendars_error_iff_enumeration_fails (Except.ok [{ ID := "a" }])
      (fun _ => Except.error "x") { StartDateTime := "s", EndDateTime := "e" }).2 [{ ID := "a" }] rfl⟩

/-! ## Claim C9 -/

/-- C9, confirmed.  `CalendarView` with nil options, or an empty
`StartDateTime` or `EndDateTime`, returns the corresponding validation error;
the result is independent of both collaborators, which formalizes in this
pure embedding that no HTTP request is issued. -/
theorem calendarView_rejects_invalid_options_before_http
    (lc lc2 : Except String (List Calendar))
    (single single2 : CalendarViewOptions → Except String CalendarViewResponse)
    (o? : Option CalendarViewOptions)
    (h : o? = none ∨ ∃ o, o? = some o ∧ (o.StartDateTime = "" ∨ o.EndDateTime = "")) :
    (CalendarView lc single o? = Except.error "options are required"
      ∨ CalendarView lc single o? = Except.error "startDateTime and endDateTime are required")
    ∧ CalendarView lc single o? = CalendarView lc2 single2 o? := by
  rcases h with rfl | ⟨o, rfl, ho⟩
  · exact ⟨Or.inl rfl, rfl⟩
  · have hc : (o.StartDateTime == "" || o.EndDateTime == "") = true := by
      rcases ho with h1 | h1 <;> simp [h1]
    constructor
    · right
      unfold CalendarView
      simp [hc]
    · unfold CalendarView
      simp [hc]

/-- C9, witness at a concrete request with an empty start bound and two
different collaborator pairs. -/
theorem calendarView_rejects_invalid_options_before_http_witness :
    (CalendarView (Except.ok []) (fun _ => Except.error "no")
        (some { StartDateTime := "", EndDateTime := "x" }) = Except.error "options are required"
      ∨ CalendarView (Except.ok []) (fun _ => Except.error "no")
        (some { StartDateTime := "", EndDateTime := "x" }) = Except.error "startDateTime and endDateTime are required")
    ∧ CalendarView (Except.ok []) (fun _ => Except.error "no")
        (some { StartDateTime := "", EndDateTime := "x" }) =
      CalendarView (Except.error "n") (fun _ => Except.ok {})
        (some { StartDateTime := "", EndDateTime := "x" }) :=
  calendarView_rejects_invalid_options_before_http (Except.ok []) (Except.error "n")
    (fun _ => Except.error "no") (fun _ => Except.ok {})
    (some { StartDateTime := "", EndDateTime := "x" })
    (Or.inr ⟨{ StartDateTime := "", EndDateTime := "x" }, rfl, Or.inl rfl⟩)

/-! ## Claim C10 -/

/-- C10, confirmed.  Every per-source request is built from only the original
`StartDateTime`, `EndDateTime` and `Top`, with `CalendarID` set to the
source's ID and every other field (in particular `PageToken`) zeroed; the
aggregate result is invariant under changes to any other caller-supplied
field (so a caller `PageToken` is silently dropped); and when every
successful per-source page has at most `k` events the aggregate has at most
`k` times the number of sources. -/
theorem calendarViewAllCalendars_per_source_construction
    (single : CalendarViewOptions → Except String CalendarViewResponse)
    (opts opts2 : CalendarViewOptions) (cals : List Calendar) (k : Nat)
    (hs : opts2.StartDateTime = opts.StartDateTime)
    (he : opts2.EndDateTime = opts.EndDateTime)
    (ht : opts2.Top = opts.Top)
    (hb : ∀ o r, single o = Except.ok r → r.Events.length ≤ k) :
    (∀ cal, perSourceOpts opts cal =
      { StartDateTime := opts.StartDateTime, EndDateTime := opts.EndDateTime,
        CalendarID := cal.ID, AllCalendars := false, Top := opts.Top,
        PageToken := "", UserID := "" })
    ∧ calendarViewAllCalendars (Except.ok cals) single opts2 =
        calendarViewAllCalendars (Except.ok cals) single opts
    ∧ (∃ r, calendarViewAllCalendars (Except.ok cals) single opts = Except.ok r
        ∧ r.Events.length ≤ k * cals.length) := by
  have hopts : ∀ cal, perSourceOpts opts2 cal = perSourceOpts opts cal := by
    intro cal
    unfold perSourceOpts
    rw [hs, he, ht]
  refine ⟨fun cal => rfl, ?_, ?_⟩
  · simp only [calendarViewAllCalendars]
    have hfold : List.foldl (fun acc cal =>
        match single (perSourceOpts opts2 cal) with
        | Except.error _ => acc
        | Except.ok resp => acc ++ resp.Events.map (fun event => { event with CalendarID := cal.ID })) [] cals
      = List.foldl (fun acc cal =>
        match single (perSourceOpts opts cal) with
        | Except.error _ => acc
        | Except.ok resp => acc ++ resp.Events.map (fun event => { event with CalendarID := cal.ID })) [] cals := by
      apply List.foldl_ext
      intro acc cal _
      rw [hopts cal]
    rw [hfold]
  · refine ⟨_, rfl, ?_⟩
    have bound : ∀ (cs : List Calendar) (acc : List Event),
        (List.foldl (fun acc cal =>
          match single (perSourceOpts opts cal) with
          | Except.error _ => acc
          | Except.ok resp => acc ++ resp.Events.map (fun event => { event with CalendarID := cal.ID })) acc cs).length
        ≤ acc.length + k * cs.length := by
      intro cs
      induction cs with
      | nil => intro acc; simp
      | cons c cs ih =>
        intro acc
        simp only [List.foldl_cons, List.length_cons]
        rw [Nat.mul_succ]
        cases hsc : single (perSourceOpts opts c) with
        | error e =>
          dsimp only
          have := ih acc
          omega
        | ok r =>
          dsimp only
          have hr := hb _ _ hsc
          have := ih (acc ++ r.Events.map (fun event => { event with CalendarID := c.ID }))
          simp only [List.length_append, List.length_map] at this
          omega
    simpa using bound cals []

/-- C10, witness: two sources, each page bounded by one event, aggregate
bounded by two; the hypotheses are discharged at concrete inputs. -/
theorem calendarViewAllCalendars_per_source_construction_witness :
    ∃ r, calendarViewAllCalendars (Except.ok [{ ID := "a" }, { ID := "b" }])
        (fun _ => Except.ok { Events := [{ ID := "x" }], Count := 1 })
        { StartDateTime := "s", EndDateTime := "e", Top := 5 } = Except.ok r
      ∧ r.Events.length ≤ 1 * 2 :=
  (calendarViewAllCalendars_per_source_construction
    (fun _ => Except.ok { Events := [{ ID := "x" }], Count := 1 })
    { StartDateTime := "s", EndDateTime := "e", Top := 5 }
    { StartDateTime := "s", EndDateTime := "e", Top := 5, PageToken := "zz", CalendarID := "q" }
    [{ ID := "a" }, { ID := "b" }] 1 rfl rfl rfl
    (by intro o r h; cases h; decide)).2.2

/-! ## Claim C7 -/

/-- C7, confirmed.  For every continuation link that parses, if the first
`$skiptoken` value in its query is non-empty then `ExtractPageToken` returns
it verbatim (regardless of any `$skip` parameter); otherwise it returns the
first `$skip` value verbatim (which is the empty string when absent). -/
theorem extractPageToken_cursor_precedence (link rq : String)
    (hp : goURLParse link = some rq) :
    (queryGet rq "$skiptoken" ≠ "" → ExtractPageToken link = queryGet rq "$skiptoken")
    ∧ (queryGet rq "$skiptoken" = "" → ExtractPageToken link = queryGet rq "$skip") := by
  constructor
  · intro h
    by_cases hl : link == ""
    · exfalso
      have hlink : link = "" := eq_of_beq hl
      subst hlink
      have h0 : goURLParse "" = some "" := rfl
      rw [h0] at hp
      have hrq : rq = "" := (Option.some.inj hp).symm
      subst hrq
      exact h rfl
    · simp only [Bool.not_eq_true] at hl
      have hb : (queryGet rq "$skiptoken" != "") = true := bne_iff_ne.mpr h
      unfold ExtractPageToken
      simp [hl, hp, hb]
  · intro h
    by_cases hl : link == ""
    · have hlink : link = "" := eq_of_beq hl
      subst hlink
      have h0 : goURLParse "" = some "" := rfl
      rw [h0] at hp
      have hrq : rq = "" := (Option.some.inj hp).symm
      subst hrq
      rfl
    · simp only [Bool.not_eq_true] at hl
      unfold ExtractPageToken
      simp only [hl, Bool.false_eq_true, if_false, hp]
      simp only [h]
      by_cases h2 : queryGet rq "$skip" != ""
      · simp [h2]
      · simp only [Bool.not_eq_true] at h2
        have h3 : (queryGet rq "$skip" == "") = true := by
          have h4 := congrArg (fun b => !b) h2
          simpa [bne] using h4
        have h5 : queryGet rq "$skip" = "" := eq_of_beq h3
        simp [h2, h5]

/-- C7, witness at a concrete link carrying both parameters: the cursor
parameter wins. -/
theorem extractPageToken_cursor_precedence_witness :
    goURLParse "https://graph.microsoft.com/v1.0/me/messages?$skip=50&$skiptoken=abc123" =
      some "$skip=50&$skiptoken=abc123"
    ∧ ExtractPageToken "https://graph.microsoft.com/v1.0/me/messages?$skip=50&$skiptoken=abc123" = "abc123" :=
  ⟨by decide, by
    have h := (extractPageToken_cursor_precedence
      "https://graph.microsoft.com/v1.0/me/messages?$skip=50&$skiptoken=abc123"
      "$skip=50&$skiptoken=abc123" (by decide)).1 (by decide)
    rw [h]
    decide⟩

/-! ## Claim C8 -/

/-- C8, confirmed.  `ExtractPageToken` is a total function; it returns the
empty token on the empty string and on every input whose URL parse fails, so
malformed continuation links degrade to "no more pages" instead of failing. -/
theorem extractPageToken_total_and_safe :
    ExtractPageToken "" = ""
    ∧ (∀ s, goURLParse s = none → ExtractPageToken s = "") := by
  refine ⟨rfl, fun s h => ?_⟩
  by_cases hl : s == ""
  · have : s = "" := eq_of_beq hl
    subst this
    rfl
  · simp only [Bool.not_eq_true] at hl
    unfold ExtractPageToken
    simp [hl, h]

/-- C8, witness at the concrete malformed input from the test suite. -/
theorem extractPageToken_total_and_safe_witness :
    goURLParse "not a valid url %%" = none
    ∧ ExtractPageToken "not a valid url %%" = "" :=
  ⟨by decide, extractPageToken_total_and_safe.2 "not a valid url %%" (by decide)⟩

/-! ## Concrete evaluation checks mirroring the repository's test vectors
(src/unnamed/part_005:436-487) -/

example : ExtractPageToken "https://graph.microsoft.com/v1.0/me/messages?$skiptoken=abc123xyz" = "abc123xyz" := by decide
example : ExtractPageToken "https://graph.microsoft.com/v1.0/me/messages?$skip=50&$top=50" = "50" := by decide
example : ExtractPageToken "https://graph.microsoft.com/v1.0/me/messages?$skip=50&$skiptoken=abc123" = "abc123" := by decide
example : ExtractPageToken "https://graph.microsoft.com/v1.0/me/messages?$top=50&$skiptoken=xyz789&$count=true" = "xyz789" := by decide
example : ExtractPageToken "not a valid url %%" = "" := by decide
example : ExtractPageToken "https://graph.microsoft.com/v1.0/me/messages?$top=50" = "" := by decide
example : ExtractPageToken "" = "" := by decide
example : ExtractPageToken "https://graph.microsoft.com/v1.0/me/calendarView?$skip=10" = "10" := by decide
example : sscanfIntOk "50" = true := by decide
example : sscanfIntOk "abc" = false := by decide
example : sscanfIntOk "-12" = true := by decide
example : sscanfIntOk "50abc" = true := by decide

/-! ## Concrete evaluation checks for the Sscanf classifier: overflow and
scanner-space behavior -/

example : sscanfIntOk "9223372036854775807" = true := by decide
example : sscanfIntOk "9223372036854775808" = false := by decide
example : sscanfIntOk "99999999999999999999" = false := by decide
example : sscanfIntOk "-9223372036854775808" = true := by decide
example : sscanfIntOk "-9223372036854775809" = false := by decide
example : sscanfIntOk "\x0b50" = true := by decide
example : sscanfIntOk "\x0c50" = true := by decide
example : sscanfIntOk "\r50" = true := by decide
example : sscanfIntOk " 50" = true := by decide
example : sscanfIntOk "\n50" = false := by decide
example : sscanfIntOk "\r\n50" = false := by decide
example : sscanfIntOk "+7" = true := by decide
example : sscanfIntOk "+" = false := by decide
example : sscanfIntOk "  " = false := by decide
example : sscanfIntOk "  50" = true := by decide
example : sscanfIntOk " abc" = false := by decide
